import Mathlib

/-!
Verification of the core of a Telegram prediction bot (src/pridict.py):
membership gating, a per-user cooldown map, the prediction request handler,
the crash-recovering polling loop, and the liveness server startup.

Modelling choices. Timestamps are integers (seconds, as returned by
time.time(), here modelled at second granularity). External calls that can
raise (the Telegram API and the socket probe) are modelled by passing their
outcome in an environment record: a query result for get_chat_member, and a
Bool per outbound call telling whether it succeeds or raises. The global
cooldowns dict is an association list from user id to absolute expiry
timestamp; the first_time_users set is a list of user ids.
-/

set_option autoImplicit false

namespace Pridict

/-- COOLDOWN_SECONDS = 120 (src/pridict.py line 14). -/
def COOLDOWN_SECONDS : Int := 120

/-- PREDICTION_DELAY = 130 (src/pridict.py line 15). -/
def PREDICTION_DELAY : Int := 130

/-- Result of the external get_chat_member query: either it raises (error
with a message) or it returns a member object whose status is a string. -/
abbrev MemberQuery : Type := Except String String

/-- is_member (src/pridict.py lines 46-52): returns true when the query
succeeds and the status is member, administrator or creator; any exception
is caught, logged (a print, not modelled) and turned into false. -/
def is_member (q : MemberQuery) : Bool :=
  match q with
  | Except.error _ => false
  | Except.ok status => ["member", "administrator", "creator"].contains status

/-- The cooldowns dict: user id → absolute expiry timestamp. -/
abbrev Cooldowns : Type := List (Int × Int)

/-- Python dict read `cooldowns[user_id]` guarded by `user_id in cooldowns`:
first (and only) binding for the key, if any. -/
def lookupCd : Cooldowns → Int → Option Int
  | [], _ => none
  | (k, v) :: rest, u => if k = u then some v else lookupCd rest u

/-- Python dict write `cooldowns[user_id] = e`: overwrite the binding for the
key if present, otherwise add it; no binding is ever deleted. -/
def setCd : Cooldowns → Int → Int → Cooldowns
  | [], u, v => [(u, v)]
  | (k, w) :: rest, u, v =>
      if k = u then (u, v) :: rest else (k, w) :: setCd rest u v

/-- The quantity `cooldowns[user_id] - time.time()` bound to `remaining` at
src/pridict.py line 145 (0 when the user has no entry, in which case the
guard `user_id in cooldowns` already fails). -/
def remainingCd (cd : Cooldowns) (u : Int) (t : Int) : Int :=
  match lookupCd cd u with
  | some exp => exp - t
  | none => 0

/-- The spec's `remaining` contract clamps to zero: zero or negative raw
remaining means immediately eligible. -/
def remainingClamped (cd : Cooldowns) (u : Int) (t : Int) : Int :=
  max 0 (remainingCd cd u t)

/-- User-visible effects emitted by the handler, in order. -/
inductive Response where
  | answerCallback (text : String) (showAlert : Bool)
  | editReplyMarkup
  | sendSticker
  | sendPrediction (futureTime coef safe : Int)
  deriving DecidableEq, Repr

/-- Terminal state of one interaction of the handler state machine. -/
inductive Outcome where
  | denied
  | throttled (mins secs : Nat)
  | issued (futureTime coef safe : Int)
  | errorLogged
  deriving DecidableEq, Repr

/-- Mutable globals touched by handle_prediction. -/
structure BotState where
  cooldowns : Cooldowns
  firstTimeUsers : List Int
  deriving DecidableEq, Repr

/-- Outcomes of the external calls made during one handler run, plus the
call-instant clock value and the two pseudo-random draws. A false Bool means
the corresponding Telegram API call raises. -/
structure Env where
  memberQuery : MemberQuery
  now : Int
  editOk : Bool
  stickerOk : Bool
  sendOk : Bool
  answerOk : Bool
  coefDraw : Int
  safeDraw : Int

/-- Result of one handler run: the new globals, the user-visible responses
in emission order, and the terminal outcome. -/
structure HResult where
  state : BotState
  responses : List Response
  outcome : Outcome
  deriving Repr

/-- generate_prediction (src/pridict.py lines 61-65): the two coefficients
are pseudo-random draws (passed in), the target time is now plus
PREDICTION_DELAY. -/
def generate_prediction (now coefDraw safeDraw : Int) : Int × Int × Int :=
  (now + PREDICTION_DELAY, coefDraw, safeDraw)

/-- The throttle message text built at src/pridict.py line 149. -/
def waitText (mins secs : Nat) : String :=
  "🔒 Please wait " ++ toString mins ++ "m " ++ toString secs ++ "s"

/-- The fall-through body of handle_prediction (src/pridict.py lines
154-205): remove the button (failure swallowed), send the sticker to
first-time users (failure swallowed, and the user is only recorded after a
successful send), generate the prediction, send it, arm the cooldown, answer
the callback. An exception from send_message or answer_callback_query is
caught by the outer handler (lines 207-208), which only logs; the cooldown
is armed after the send and before the answer, with no rollback. -/
def issuingPath (env : Env) (userId : Int) (st : BotState) : HResult :=
  let editResp : List Response :=
    if env.editOk then [Response.editReplyMarkup] else []
  let stickerStep : List Response × List Int :=
    if st.firstTimeUsers.contains userId then ([], st.firstTimeUsers)
    else if env.stickerOk then
      ([Response.sendSticker], userId :: st.firstTimeUsers)
    else ([], st.firstTimeUsers)
  let pred := generate_prediction env.now env.coefDraw env.safeDraw
  if env.sendOk then
    let armed : BotState :=
      { cooldowns := setCd st.cooldowns userId (env.now + COOLDOWN_SECONDS),
        firstTimeUsers := stickerStep.2 }
    if env.answerOk then
      { state := armed,
        responses := editResp ++ stickerStep.1 ++
          [Response.sendPrediction pred.1 pred.2.1 pred.2.2,
           Response.answerCallback "✅ Prediction generated!" false],
        outcome := Outcome.issued pred.1 pred.2.1 pred.2.2 }
    else
      { state := armed,
        responses := editResp ++ stickerStep.1 ++
          [Response.sendPrediction pred.1 pred.2.1 pred.2.2],
        outcome := Outcome.errorLogged }
  else
    { state := { cooldowns := st.cooldowns, firstTimeUsers := stickerStep.2 },
      responses := editResp ++ stickerStep.1,
      outcome := Outcome.errorLogged }

/-- handle_prediction (src/pridict.py lines 136-208): membership gate first,
then the cooldown guard `user_id in cooldowns and cooldowns[user_id] -
time.time() > 0`, then the issuing path. The whole body is wrapped in a
try/except that only prints, so a raising answer_callback_query ends the
interaction with no reply (Outcome.errorLogged). -/
def handle_prediction (env : Env) (userId : Int) (st : BotState) : HResult :=
  if is_member env.memberQuery then
    match lookupCd st.cooldowns userId with
    | some exp =>
        if 0 < exp - env.now then
          let r := (exp - env.now).toNat
          if env.answerOk then
            { state := st,
              responses := [Response.answerCallback (waitText (r / 60) (r % 60)) true],
              outcome := Outcome.throttled (r / 60) (r % 60) }
          else
            { state := st, responses := [], outcome := Outcome.errorLogged }
        else issuingPath env userId st
    | none => issuingPath env userId st
  else
    if env.answerOk then
      { state := st,
        responses := [Response.answerCallback "❌ Channel membership required!" true],
        outcome := Outcome.denied }
    else
      { state := st, responses := [], outcome := Outcome.errorLogged }

/-- A successful membership query with status member. -/
def okQuery : MemberQuery := Except.ok "member"

/-- Concrete environment in which every external call succeeds, at clock 0. -/
def envAllOk : Env :=
  { memberQuery := okQuery, now := 0, editOk := true, stickerOk := true,
    sendOk := true, answerOk := true, coefDraw := 3, safeDraw := 2 }

/-- Environment in which the membership query raises. -/
def envDeny : Env := { envAllOk with memberQuery := Except.error "user not found" }

/-- Environment in which the prediction send_message call raises (and the
button-edit call raises too, its failure being swallowed locally). -/
def envSendFail : Env := { envAllOk with sendOk := false, editOk := false }

/-- Empty globals: no cooldowns, no first-time users recorded. -/
def stEmpty : BotState := { cooldowns := [], firstTimeUsers := [] }

/-- Globals where user 7 is cooling down until timestamp 100. -/
def stCooling : BotState := { cooldowns := [(7, 100)], firstTimeUsers := [] }

/-- Globals where user 7 has a stale entry (expiry in the past). -/
def stStale : BotState := { cooldowns := [(7, -5)], firstTimeUsers := [] }

/-- Globals where user 9 has already received the first-time sticker. -/
def stSeen : BotState := { cooldowns := [], firstTimeUsers := [9] }

/-- Modelled from the spec: the source only contains the in-process
cooldowns dict; the optional external TTL key-value backend and the Cooldown
Store wrapper around both are described in spec §4.1 and §6 but absent from
the source. The store state is the backend's key space plus the in-process
fallback map, both keyed by user id with an absolute expiry. -/
structure StoreState where
  backend : Cooldowns
  fallback : Cooldowns
  deriving DecidableEq, Repr

/-- Modelled from the spec: a backend write, which either raises (connection
refused) or stores the key with the given expiry. -/
def backendArm (armRaises : Bool) (bk : Cooldowns) (u exp : Int) :
    Except String Cooldowns :=
  if armRaises then Except.error "connection refused"
  else Except.ok (setCd bk u exp)

/-- Modelled from the spec: a backend read of the remaining time-to-live,
which either raises or reports the remaining TTL clamped to zero. -/
def backendTtl (readRaises : Bool) (bk : Cooldowns) (u now : Int) :
    Except String Int :=
  if readRaises then Except.error "connection refused"
  else Except.ok (max 0 (remainingCd bk u now))

/-- Modelled from the spec: `arm(user, window)`. When the backend is
configured and the write succeeds, the key is stored there; when the write
raises, the error is caught (never re-raised to the caller) and the entry is
silently written into the in-process fallback instead; the fallback decision
is made per call. -/
def storeArm (configured armRaises : Bool) (s : StoreState)
    (u now window : Int) : StoreState :=
  if configured then
    match backendArm armRaises s.backend u (now + window) with
    | Except.ok bk => { s with backend := bk }
    | Except.error _ => { s with fallback := setCd s.fallback u (now + window) }
  else { s with fallback := setCd s.fallback u (now + window) }

/-- Modelled from the spec: `remaining(user)`. Served from the backend TTL
when configured and readable; on a backend error, served from the in-process
fallback, clamped to zero, with the error caught internally. -/
def storeRemaining (configured readRaises : Bool) (s : StoreState)
    (u now : Int) : Int :=
  if configured then
    match backendTtl readRaises s.backend u now with
    | Except.ok ttl => ttl
    | Except.error _ => max 0 (remainingCd s.fallback u now)
  else max 0 (remainingCd s.fallback u now)

/-- Modelled from the spec: startup refuses to run without the required
bot authentication token (spec §6: the external client constructor rejects a
missing token, making the process exit non-zero before serving anything);
with the token present the process runs indefinitely and has no startup exit
code. -/
def startupExitCode (botToken : Option String) : Option Nat :=
  match botToken with
  | none => some 1
  | some _ => none

/-- One observable action of the polling loop run_bot (src/pridict.py lines
228-239): entering the blocking receive call, logging a crash, or sleeping
the fixed backoff. -/
inductive LoopAction where
  | poll
  | log (msg : String)
  | sleep (secs : Nat)
  deriving DecidableEq, Repr

/-- run_bot (src/pridict.py lines 228-239) as a trace: given the finite
prefix of consecutive receive failures (each entry the exception message of
one raising infinity_polling call), the while-True loop polls, and on each
exception logs the crash, sleeps 10 seconds and re-enters the receive call;
the trace ends at the next (non-raising, blocking) receive. -/
def run_bot_trace : List String → List LoopAction
  | [] => [LoopAction.poll]
  | e :: rest =>
      LoopAction.poll :: LoopAction.log ("🛑 Bot crash: " ++ e) ::
        LoopAction.sleep 10 :: run_bot_trace rest

/-- Number of receive attempts in a loop trace. -/
def countPolls : List LoopAction → Nat
  | [] => 0
  | LoopAction.poll :: rest => countPolls rest + 1
  | _ :: rest => countPolls rest

/-- Number of backoff sleeps in a loop trace. -/
def countSleeps : List LoopAction → Nat
  | [] => 0
  | LoopAction.sleep _ :: rest => countSleeps rest + 1
  | _ :: rest => countSleeps rest

/-- Result of run_flask (src/pridict.py lines 223-225): either app.run is
entered (the liveness server is started and blocks serving) or the function
returns at once without starting it. -/
inductive FlaskRun where
  | served
  | skipped
  deriving DecidableEq, Repr

/-- run_flask: start the server exactly when is_port_in_use(PORT) is false;
otherwise fall through the if and return (no raise, no retry). The socket
probe's outcome is passed in. -/
def run_flask (portInUse : Bool) : FlaskRun :=
  if !portInUse then FlaskRun.served else FlaskRun.skipped

/-- Fate of the process as laid out in the main block (src/pridict.py lines
241-244): the polling thread is started as a daemon, then the main thread
calls run_flask. If app.run is entered the main thread blocks serving the
liveness endpoint; if run_flask returns at once, the main thread falls off
the end of the script and, the only other thread being a daemon, the process
ends. -/
inductive ProcessFate where
  | servesLiveness
  | exits
  deriving DecidableEq, Repr

/-- The process fate as a function of the port probe. -/
def main_fate (portInUse : Bool) : ProcessFate :=
  match run_flask portInUse with
  | FlaskRun.served => ProcessFate.servesLiveness
  | FlaskRun.skipped => ProcessFate.exits

end Pridict

namespace Pridict

/-- Key lemma for the cooldown dict: a write is read back, other keys are
untouched. -/
theorem lookupCd_setCd (cd : Cooldowns) (u v x : Int) :
    lookupCd (setCd cd u v) x = if x = u then some v else lookupCd cd x := by
  induction cd with
  | nil =>
      rcases eq_or_ne x u with h | h
      · subst h; simp [setCd, lookupCd]
      · simp [setCd, lookupCd, h, Ne.symm h]
  | cons kv rest ih =>
      obtain ⟨k, w⟩ := kv
      rcases eq_or_ne k u with hk | hk
      · subst hk
        rcases eq_or_ne x k with hx | hx
        · subst hx; simp [setCd, lookupCd]
        · simp [setCd, lookupCd, hx, Ne.symm hx]
      · rcases eq_or_ne x k with hx | hx
        · subst hx
          simp [setCd, lookupCd, hk, Ne.symm hk]
        · simp [setCd, lookupCd, hk, Ne.symm hx, ih]

/-- Claim C1: is_member fails closed — every error from the external
membership query yields false (the exception is swallowed, never propagated:
is_member is a total Bool-valued function), and on a successful query it
returns true exactly for the statuses member, administrator and creator. -/
theorem c1_is_member_fail_closed :
    (∀ e : String, is_member (Except.error e) = false) ∧
    (∀ s : String, is_member (Except.ok s) = true ↔
      (s = "member" ∨ s = "administrator" ∨ s = "creator")) := by
  refine ⟨fun e => rfl, fun s => ?_⟩
  simp [is_member]

/-- When the user is a member and has no active cooldown (no entry, or raw
remaining ≤ 0), handle_prediction falls through to the issuing path. -/
theorem handle_not_cooled (env : Env) (u : Int) (st : BotState)
    (hm : is_member env.memberQuery = true)
    (hcd : remainingCd st.cooldowns u env.now ≤ 0) :
    handle_prediction env u st = issuingPath env u st := by
  unfold handle_prediction
  cases heq : lookupCd st.cooldowns u with
  | none => simp [hm, heq]
  | some exp =>
      have hle : ¬ (0 < exp - env.now) := by
        simp only [remainingCd, heq] at hcd; omega
      simp [hm, heq, hle]

/-- When the send succeeds, the issuing path arms the cooldown for the user
to now + COOLDOWN_SECONDS, whatever the other call outcomes. -/
theorem issuing_state (env : Env) (u : Int) (st : BotState)
    (hs : env.sendOk = true) :
    (issuingPath env u st).state.cooldowns =
      setCd st.cooldowns u (env.now + COOLDOWN_SECONDS) := by
  unfold issuingPath
  by_cases ha : env.answerOk <;> simp [hs, ha]

/-- When the send succeeds, the issuing path emits the prediction message
built from the call-instant clock and the two random draws. -/
theorem issuing_sends (env : Env) (u : Int) (st : BotState)
    (hs : env.sendOk = true) :
    Response.sendPrediction (env.now + PREDICTION_DELAY) env.coefDraw env.safeDraw ∈
      (issuingPath env u st).responses := by
  unfold issuingPath generate_prediction
  by_cases ha : env.answerOk <;> simp [hs, ha]

/-- Claim C2: for an authorized user with no active cooldown, a successful
issuance at call instant now stores expiry now + COOLDOWN_SECONDS (the
configured window, 120 s); the raw remaining immediately after equals the
window, and the clamped remaining decays monotonically as time advances and
is never negative. -/
theorem c2_issuing_arms_cooldown (env : Env) (u : Int) (st : BotState)
    (hm : is_member env.memberQuery = true)
    (hcd : remainingCd st.cooldowns u env.now ≤ 0)
    (hs : env.sendOk = true) :
    lookupCd (handle_prediction env u st).state.cooldowns u =
      some (env.now + COOLDOWN_SECONDS) ∧
    COOLDOWN_SECONDS = 120 ∧
    remainingCd (handle_prediction env u st).state.cooldowns u env.now =
      COOLDOWN_SECONDS ∧
    (∀ t1 t2 : Int, t1 ≤ t2 →
      remainingClamped (handle_prediction env u st).state.cooldowns u t2 ≤
        remainingClamped (handle_prediction env u st).state.cooldowns u t1) ∧
    (∀ t : Int, 0 ≤ remainingClamped (handle_prediction env u st).state.cooldowns u t) := by
  rw [handle_not_cooled env u st hm hcd, issuing_state env u st hs]
  have hlk : lookupCd (setCd st.cooldowns u (env.now + COOLDOWN_SECONDS)) u =
      some (env.now + COOLDOWN_SECONDS) := by
    rw [lookupCd_setCd]; simp
  refine ⟨hlk, rfl, ?_, ?_, ?_⟩
  · simp only [remainingCd, hlk]; ring
  · intro t1 t2 h12
    simp only [remainingClamped, remainingCd, hlk]; omega
  · intro t
    simp only [remainingClamped, remainingCd, hlk]; omega

/-- Witness for C2 at a concrete input: user 7, empty state, all calls ok. -/
theorem c2_witness :
    lookupCd (handle_prediction envAllOk 7 stEmpty).state.cooldowns 7 =
      some (envAllOk.now + COOLDOWN_SECONDS) ∧
    COOLDOWN_SECONDS = 120 ∧
    remainingCd (handle_prediction envAllOk 7 stEmpty).state.cooldowns 7 envAllOk.now =
      COOLDOWN_SECONDS ∧
    (∀ t1 t2 : Int, t1 ≤ t2 →
      remainingClamped (handle_prediction envAllOk 7 stEmpty).state.cooldowns 7 t2 ≤
        remainingClamped (handle_prediction envAllOk 7 stEmpty).state.cooldowns 7 t1) ∧
    (∀ t : Int, 0 ≤ remainingClamped (handle_prediction envAllOk 7 stEmpty).state.cooldowns 7 t) :=
  c2_issuing_arms_cooldown envAllOk 7 stEmpty (by decide) (by decide) rfl

/-- Claim C3: a user with positive raw remaining is throttled: the whole
result is exactly the unchanged state plus one wait alert whose minutes and
seconds are remaining div 60 and remaining mod 60 — no prediction, no
re-arm. -/
theorem c3_throttled_leaves_expiry (env : Env) (u : Int) (st : BotState) (exp : Int)
    (hm : is_member env.memberQuery = true)
    (hlk : lookupCd st.cooldowns u = some exp)
    (hr : 0 < exp - env.now)
    (ha : env.answerOk = true) :
    handle_prediction env u st =
      { state := st,
        responses := [Response.answerCallback
          (waitText ((exp - env.now).toNat / 60) ((exp - env.now).toNat % 60)) true],
        outcome := Outcome.throttled ((exp - env.now).toNat / 60) ((exp - env.now).toNat % 60) } := by
  unfold handle_prediction
  simp [hm, hlk, hr, ha]

/-- Witness for C3: user 7 at clock 0 with expiry 100 is told to wait
1m 40s and the state is untouched. -/
theorem c3_witness :
    handle_prediction envAllOk 7 stCooling =
      { state := stCooling,
        responses := [Response.answerCallback
          (waitText ((100 - envAllOk.now).toNat / 60) ((100 - envAllOk.now).toNat % 60)) true],
        outcome := Outcome.throttled ((100 - envAllOk.now).toNat / 60)
          ((100 - envAllOk.now).toNat % 60) } :=
  c3_throttled_leaves_expiry envAllOk 7 stCooling 100 (by decide) (by decide) (by decide) rfl

/-- Claim C4: an unauthorized user is denied before the cooldown check: the
result is exactly the unchanged state plus one join-required alert — no
cooldown entry is created or modified and no prediction is computed. -/
theorem c4_denied_frame (env : Env) (u : Int) (st : BotState)
    (hm : is_member env.memberQuery = false)
    (ha : env.answerOk = true) :
    handle_prediction env u st =
      { state := st,
        responses := [Response.answerCallback "❌ Channel membership required!" true],
        outcome := Outcome.denied } := by
  unfold handle_prediction
  simp [hm, ha]

/-- Witness for C4: the membership query raises, user 7, empty state. -/
theorem c4_witness :
    handle_prediction envDeny 7 stEmpty =
      { state := stEmpty,
        responses := [Response.answerCallback "❌ Channel membership required!" true],
        outcome := Outcome.denied } :=
  c4_denied_frame envDeny 7 stEmpty (by decide) rfl

/-- Claim C5: a user whose stored expiry lies in the past (or who has no
entry) is treated as having no active cooldown: the raw remaining is ≤ 0,
the request proceeds to issuance, the stale entry is overwritten to
now + COOLDOWN_SECONDS (never purged), and every other user's entry is left
untouched. -/
theorem c5_stale_treated_eligible (env : Env) (u : Int) (st : BotState)
    (hm : is_member env.memberQuery = true)
    (hstale : ∀ exp : Int, lookupCd st.cooldowns u = some exp → exp ≤ env.now)
    (hs : env.sendOk = true) :
    remainingCd st.cooldowns u env.now ≤ 0 ∧
    (Response.sendPrediction (env.now + PREDICTION_DELAY) env.coefDraw env.safeDraw ∈
      (handle_prediction env u st).responses) ∧
    lookupCd (handle_prediction env u st).state.cooldowns u =
      some (env.now + COOLDOWN_SECONDS) ∧
    (∀ v : Int, v ≠ u →
      lookupCd (handle_prediction env u st).state.cooldowns v = lookupCd st.cooldowns v) := by
  have hcd : remainingCd st.cooldowns u env.now ≤ 0 := by
    cases heq : lookupCd st.cooldowns u with
    | none => simp [remainingCd, heq]
    | some exp =>
        have := hstale exp heq
        simp only [remainingCd, heq]; omega
  rw [handle_not_cooled env u st hm hcd]
  refine ⟨hcd, issuing_sends env u st hs, ?_, ?_⟩
  · rw [issuing_state env u st hs, lookupCd_setCd]; simp
  · intro v hv
    rw [issuing_state env u st hs, lookupCd_setCd]
    simp [hv]

/-- Witness for C5: user 7 with stale expiry -5 at clock 0. -/
theorem c5_witness :
    remainingCd stStale.cooldowns 7 envAllOk.now ≤ 0 ∧
    (Response.sendPrediction (envAllOk.now + PREDICTION_DELAY) envAllOk.coefDraw envAllOk.safeDraw ∈
      (handle_prediction envAllOk 7 stStale).responses) ∧
    lookupCd (handle_prediction envAllOk 7 stStale).state.cooldowns 7 =
      some (envAllOk.now + COOLDOWN_SECONDS) ∧
    (∀ v : Int, v ≠ 7 →
      lookupCd (handle_prediction envAllOk 7 stStale).state.cooldowns v =
        lookupCd stStale.cooldowns v) :=
  c5_stale_treated_eligible envAllOk 7 stStale (by decide)
    (by intro exp h; simp [stStale, lookupCd] at h; simp [envAllOk]; omega) rfl

/-- Counterexample to C7 as stated: a member with no active cooldown, whose
button-edit and prediction-send calls raise, receives no response at all —
the interaction ends silently with only a logged error, not a generic
"service busy" notice. -/
theorem c7_counterexample :
    (handle_prediction envSendFail 9 stSeen).responses = [] ∧
    (handle_prediction envSendFail 9 stSeen).outcome = Outcome.errorLogged := by
  constructor <;> rfl

/-- Claim C7 amended: when the prediction send raises, the error is caught
and logged and never propagated (the interaction terminates with
Outcome.errorLogged), but the user is not guaranteed a terminal reply: the
only responses possibly emitted before the failure are the button edit and
the sticker — no message, no callback answer, and no retry notice. -/
theorem c7_amended_no_terminal_reply (env : Env) (u : Int) (st : BotState)
    (hm : is_member env.memberQuery = true)
    (hcd : remainingCd st.cooldowns u env.now ≤ 0)
    (hs : env.sendOk = false) :
    (handle_prediction env u st).outcome = Outcome.errorLogged ∧
    ∀ r ∈ (handle_prediction env u st).responses,
      r = Response.editReplyMarkup ∨ r = Response.sendSticker := by
  rw [handle_not_cooled env u st hm hcd]
  unfold issuingPath
  by_cases he : env.editOk <;>
    by_cases hf : u ∈ st.firstTimeUsers <;>
      by_cases hsk : env.stickerOk <;>
        simp [hs, he, hf, hsk]

/-- Witness for the amended C7 at the counterexample input. -/
theorem c7_amended_witness :
    (handle_prediction envSendFail 9 stSeen).outcome = Outcome.errorLogged ∧
    ∀ r ∈ (handle_prediction envSendFail 9 stSeen).responses,
      r = Response.editReplyMarkup ∨ r = Response.sendSticker :=
  c7_amended_no_terminal_reply envSendFail 9 stSeen (by decide) (by decide) rfl

/-- Claim C6: with the external backend configured, a raising backend write
on arm never escapes to the handler: the backend is left untouched, the
entry is silently written into the in-process fallback, and a subsequent
remaining call (served from the fallback while the backend still raises)
reports a positive value at any instant before the expiry. -/
theorem c6_backend_failure_falls_back (s : StoreState) (u now window t : Int)
    (ht : t < now + window) :
    (storeArm true true s u now window).backend = s.backend ∧
    (storeArm true true s u now window).fallback =
      setCd s.fallback u (now + window) ∧
    0 < storeRemaining true true (storeArm true true s u now window) u t := by
  have harm : storeArm true true s u now window =
      { s with fallback := setCd s.fallback u (now + window) } := by
    simp [storeArm, backendArm]
  refine ⟨by rw [harm], by rw [harm], ?_⟩
  rw [harm]
  simp only [storeRemaining, backendTtl, remainingCd, lookupCd_setCd,
    if_true, if_pos rfl, reduceIte]
  omega

/-- Witness for C6: empty store, user 7 armed at 0 with window 120, read at
instant 30. -/
theorem c6_witness :
    (storeArm true true { backend := [], fallback := [] } 7 0 120).backend = [] ∧
    (storeArm true true { backend := [], fallback := [] } 7 0 120).fallback =
      setCd [] 7 (0 + 120) ∧
    0 < storeRemaining true true
        (storeArm true true { backend := [], fallback := [] } 7 0 120) 7 30 :=
  c6_backend_failure_falls_back { backend := [], fallback := [] } 7 0 120 30 (by decide)

/-- Claim C8: with the bot token environment variable absent the process
exits non-zero at startup; with it present there is no startup exit and the
process runs until an external signal. -/
theorem c8_token_required :
    (∃ c : Nat, startupExitCode none = some c ∧ 0 < c) ∧
    (∀ t : String, startupExitCode (some t) = none) :=
  ⟨⟨1, rfl, Nat.one_pos⟩, fun _ => rfl⟩

/-- Claim C9: the ingestion loop never exits on error. For any finite run of
consecutive receive failures, the trace re-enters the blocking receive after
every failure: it contains one receive attempt more than there are failures,
one backoff sleep per failure, every sleep uses the fixed 10-second backoff,
and the trace ends in a receive attempt (the loop is still accepting
events). -/
theorem c9_loop_never_exits (errs : List String) :
    countPolls (run_bot_trace errs) = errs.length + 1 ∧
    countSleeps (run_bot_trace errs) = errs.length ∧
    (∀ n : Nat, LoopAction.sleep n ∈ run_bot_trace errs → n = 10) ∧
    ∃ pre : List LoopAction, run_bot_trace errs = pre ++ [LoopAction.poll] := by
  induction errs with
  | nil =>
      refine ⟨rfl, rfl, ?_, ⟨[], rfl⟩⟩
      intro n hn
      simp [run_bot_trace] at hn
  | cons e rest ih =>
      obtain ⟨h1, h2, h3, pre, h4⟩ := ih
      refine ⟨?_, ?_, ?_, ?_⟩
      · simp [run_bot_trace, countPolls, h1]
      · simp [run_bot_trace, countSleeps, h2]
      · intro n hn
        simp only [run_bot_trace, List.mem_cons] at hn
        rcases hn with h | h | h | h
        · cases h
        · cases h
        · cases h; rfl
        · exact h3 n h
      · exact ⟨LoopAction.poll :: LoopAction.log ("🛑 Bot crash: " ++ e) ::
          LoopAction.sleep 10 :: pre, by simp [run_bot_trace, h4]⟩

/-- Claim C10: the liveness server is started iff the port probe finds the
port free; when the port is in use, run_flask returns without serving, and
the main thread's return ends the process (the polling thread being a
daemon). -/
theorem c10_flask_iff_port_free :
    (∀ b : Bool, run_flask b = FlaskRun.served ↔ b = false) ∧
    main_fate true = ProcessFate.exits ∧
    main_fate false = ProcessFate.servesLiveness := by
  refine ⟨?_, rfl, rfl⟩
  intro b
  cases b <;> simp [run_flask]

end Pridict
